import Mathlib

/-!
Shallow embedding of the HDFS-to-S3 transfer pipeline
(repository bhargavi1poyekar/Hadoop_to_AWS), covering
`src/integrity.py`, `src/hdfs.py`, `src/encryption.py` and the
orchestrating `main()` of `src/main.py`.

Byte strings are modelled as `List Nat` (one entry per byte).  Python
`str` values are modelled as Lean `String`.  External collaborators
(the Secrets-Manager fetch, the `hadoop fs -stat` and `id -Gn`
subprocesses, the HDFS read, the remote KMS call, the S3 put/get, the
CloudWatch and SNS clients, and the wall clock) are modelled as fields
of an `Env` record supplied per invocation; the repository code that
consumes their results is translated verbatim into the functions
below.
-/

namespace HadoopToAws

/-- Predicate used by the models of Python `str.strip()` / `str.split()`. -/
def wsChar (c : Char) : Bool := c.isWhitespace

/-- Model of Python `str.strip()` on the character list of a string:
drop whitespace from both ends. -/
def pyStrip (l : List Char) : List Char :=
  ((l.dropWhile wsChar).reverse.dropWhile wsChar).reverse

/-- Helper for `pySplitWS`: split a character list on runs of whitespace,
accumulating the current (reversed) token in `acc`. -/
def splitWSAux : List Char → List Char → List (List Char)
  | [], acc => if acc = [] then [] else [acc.reverse]
  | c :: rest, acc =>
    if wsChar c then
      (if acc = [] then [] else [acc.reverse]) ++ splitWSAux rest []
    else splitWSAux rest (c :: acc)

/-- Model of Python `str.split()` with no separator argument: split on
whitespace runs, discarding empty tokens. -/
def pySplitWS (s : String) : List String :=
  (splitWSAux s.data []).map (fun cs => String.mk cs)

/-- Model of Python `str.encode('utf-8')`: the UTF-8 bytes of a string,
as a list of naturals. -/
def strBytes (s : String) : List Nat :=
  (s.data.map (fun c => String.utf8EncodeChar c)).flatten.map (fun b => b.toNat)

/-- Bool test that `pat` occurs as a contiguous substring of `l`
(model of the Python `in` operator on strings). -/
def listContainsSeq (pat : List Char) : List Char → Bool
  | [] => pat = []
  | c :: rest => pat.isPrefixOf (c :: rest) || listContainsSeq pat rest

/-- String-level wrapper of `listContainsSeq`: `pat` occurs in `s`. -/
def containsStr (s pat : String) : Bool := listContainsSeq pat.data s.data

/-! ## `src/integrity.py`

`generate_checksum` delegates to the sha256 hex digest of `hashlib`,
an external library; the digest function is modelled as an explicit
parameter `H` (the pipeline always uses the default algorithm, so the
`algorithm` argument is fixed and omitted). -/

/-- Model of `generate_checksum(data, algorithm='sha256')` from
`src/integrity.py`: apply the (externally supplied) hex-digest function
`H` to the data. -/
def generate_checksum (H : List Nat → String) (data : List Nat) : String :=
  H data

/-- Model of `verify_checksum(original_data, received_checksum)` from
`src/integrity.py`: recompute the checksum of `original_data` and
compare it with `received_checksum` for equality. -/
def verify_checksum (H : List Nat → String) (original_data : List Nat)
    (received_checksum : String) : Bool :=
  generate_checksum H original_data == received_checksum

/-! ## `src/hdfs.py` — group-based access check -/

/-- Results of the two external lookup commands used by the access
check: `stat path` is the stdout of `hadoop fs -stat %g path` (`none`
when the command exits nonzero, i.e. `subprocess.CalledProcessError`),
and `idGn user` is the stdout of `id -Gn user` (`none` on nonzero
exit). -/
structure World where
  stat : String → Option String
  idGn : String → Option String

/-- Model of `get_file_group(file_path)` from `src/hdfs.py`: on command
success return `result.stdout.strip()`, on `CalledProcessError` return
`None` (here `none`), never raising. -/
def get_file_group (w : World) (file_path : String) : Option String :=
  match w.stat file_path with
  | some out => some (String.mk (pyStrip out.data))
  | none => none

/-- Model of `get_user_groups(user)` from `src/hdfs.py`: on command
success return `result.stdout.strip().split()`, on
`CalledProcessError` return the empty list, never raising. -/
def get_user_groups (w : World) (user : String) : List String :=
  match w.idGn user with
  | some out => pySplitWS (String.mk (pyStrip out.data))
  | none => []

/-- Model of `check_user_access(file_path, user)` from `src/hdfs.py`:
look up the owning group of the file; if it is `None` or empty
(`if not file_group`) deny; otherwise grant iff it occurs in the list
of groups of the user (`file_group in user_groups`). -/
def check_user_access (w : World) (file_path user : String) : Bool :=
  match get_file_group w file_path with
  | none => false
  | some file_group =>
    if file_group = "" then false
    else decide (file_group ∈ get_user_groups w user)

/-! ## `src/encryption.py` — local Fernet cipher -/

/-- Model of the external `cryptography.fernet.Fernet` object built
from a key: an encrypt and a decrypt function together with the
documented guarantees of the library used by the claims — decrypting
an encryption returns the plaintext, and a Fernet token is never
empty. -/
structure FernetCipher where
  encryptFn : List Nat → List Nat
  decryptFn : List Nat → List Nat
  decrypt_encrypt : ∀ x, decryptFn (encryptFn x) = x
  encrypt_nonempty : ∀ x, encryptFn x ≠ []

/-- Record returned by `Encryption.encrypt_data` in
`src/encryption.py`: the dictionary with keys `ciphertext` and
`key_id`. -/
structure EncryptedData where
  ciphertext : List Nat
  key_id : List Nat
deriving DecidableEq

/-- State of an `Encryption` instance from `src/encryption.py`:
`self.key` (the encoded key bytes) and `self.cipher` (the Fernet
object built from that key, modelled abstractly). -/
structure Encryption where
  key : List Nat
  cipher : FernetCipher

/-- Model of `Encryption.__init__(region_name, encryption_key)` from
`src/encryption.py`: reject a falsy (empty) key with `ValueError`,
otherwise store `self.key = encryption_key.encode()` and build the
Fernet cipher from it (the Fernet construction itself is external and
passed in as `cipher`). -/
def Encryption.init (encryption_key : String) (cipher : FernetCipher) :
    Except String Encryption :=
  if encryption_key = "" then Except.error "Encryption key cannot be empty"
  else Except.ok { key := strBytes encryption_key, cipher := cipher }

/-- Model of `Encryption.encrypt_data(data)` from `src/encryption.py`:
raise `ValueError` on empty input, otherwise return the dictionary
with `ciphertext = self.cipher.encrypt(data)` and
`key_id = self.key`. -/
def Encryption.encrypt_data (self : Encryption) (data : List Nat) :
    Except String EncryptedData :=
  if data = [] then Except.error "Data cannot be empty"
  else Except.ok { ciphertext := self.cipher.encryptFn data, key_id := self.key }

/-- Model of `Encryption.decrypt_data(ciphertext)` from
`src/encryption.py`: raise `ValueError` on empty input, otherwise
return `self.cipher.decrypt(ciphertext)`. -/
def Encryption.decrypt_data (self : Encryption) (ciphertext : List Nat) :
    Except String (List Nat) :=
  if ciphertext = [] then Except.error "Ciphertext cannot be empty"
  else Except.ok (self.cipher.decryptFn ciphertext)

/-! ## KMS variant used by `main()` -/

/-- Record returned by the managed-key encrypt call: ciphertext plus
the identifier of the key that produced it. -/
structure KMSRecord where
  ciphertext : List Nat
  key_id : String
deriving DecidableEq

/-- Modelled from the spec: the class `KMSEncryption` is imported by
`src/main.py` from `src/encryption.py` but is absent from the source
tree.  Per section 4.4 of the spec, the managed-key variant delegates
encryption to a remote key-management call (`remote`, which may fail),
must reject empty input, and any failure is fatal. -/
def KMSEncryption.encrypt_data
    (remote : List Nat → Except String KMSRecord) (data : List Nat) :
    Except String KMSRecord :=
  if data = [] then Except.error "Data cannot be empty"
  else remote data

/-! ## `src/notifications.py` and `src/monitoring.py` -/

/-- Model of `TransferNotifier.format_transfer_message(file_path,
status, details)` from `src/notifications.py`: the formatted message
embedding the path, the status and the details (the embedded
`datetime.now()` timestamp line is external clock output and is
omitted; no claim inspects it). -/
def format_transfer_message (file_path status details : String) : String :=
  "HDFS to S3 Transfer " ++ status ++ "\nFile: " ++ file_path ++
    "\nDetails: " ++ details

/-- Observable side effects of one invocation of `main()`:
HDFS read, S3 put (`uploadEv`, with the body handed to `put_object`),
S3 get (`downloadEv`), one CloudWatch metric batch per
`log_transfer_stats` call (`metricEv` with its three arguments), and
one SNS publish per `send_notification` call (`notifyEv`). -/
inductive Event where
  | readEv (path : String)
  | uploadEv (bucket key : String) (body : List Nat)
  | downloadEv (bucket key : String)
  | metricEv (file_size : Nat) (duration : Int) (status : String)
  | notifyEv (subject message : String)
deriving DecidableEq

/-- Configuration dictionary built by `main()` from the secret payload
(`src/main.py` lines 183–192). -/
structure Config where
  hdfs_url : String
  hdfs_user : String
  hdfs_path : String
  s3_bucket_name : String
  s3_file_key : String
  aws_region : String
  kms_key_id : String
  sns_topic_arn : String
deriving DecidableEq

/-- External behaviour of one invocation of `main()`.
`secrets` is the configuration produced by the `get_secret` call
(`none` when that call raises or a key is missing — `get_secret` is
imported from `src/security.py` but absent from the source tree, so it
is modelled from the spec as an opaque fallible fetch).  `clientsOk`
is whether `initialize_clients` succeeds.  `world` drives the two
access-check subprocesses.  `readRes` is the HDFS read result,
`kmsRemote` the remote KMS encrypt call, `uploadErr` the S3
`put_object` failure (if any), `downloadRes` the S3 `get_object`
read-back.  `monitorErr` / `notifierErr` are the exceptions raised (if
any) by `log_transfer_stats` / `send_notification`.  `startTime` and
`reportTime` are the two `datetime.now()` readings. -/
structure Env where
  secrets : Option Config
  clientsOk : Bool
  world : World
  readRes : Except String String
  kmsRemote : List Nat → Except String KMSRecord
  uploadErr : Option String
  downloadRes : Except String (List Nat)
  monitorErr : Option String
  notifierErr : Option String
  startTime : Int
  reportTime : Int

/-- Final state of one invocation of `main()`: `configAbort` is the
early `return` after a configuration-load failure, `crashed` is an
exception propagating out of `main` (client initialization failing, or
the except-block reporting calls themselves raising), `success` is
normal completion of the try block, and `failedReported e` is the
except block completing after catching exception `e`. -/
inductive Outcome where
  | configAbort
  | crashed
  | success
  | failedReported (error_detail : String)
deriving DecidableEq

/-- Result of one invocation of `main()`: the emitted events in order,
and the final outcome. -/
structure MainResult where
  events : List Event
  outcome : Outcome
deriving DecidableEq

/-- Model of the `except` block of `main()` (`src/main.py` lines
257–267): log, emit `log_transfer_stats(0, 0, 'Failed')`, then publish
the `"Transfer Failed"` notification with the caught exception as the
details.  If the monitor call itself raises, the exception propagates
out of `main` before any event is emitted; if the notifier call
raises, it propagates after the metric. -/
def reportFailure (cfg : Config) (monitorErr notifierErr : Option String)
    (evs : List Event) (e : String) : MainResult :=
  match monitorErr with
  | some _ => { events := evs, outcome := Outcome.crashed }
  | none =>
    match notifierErr with
    | some _ =>
      { events := evs ++ [Event.metricEv 0 0 "Failed"],
        outcome := Outcome.crashed }
    | none =>
      { events := evs ++ [Event.metricEv 0 0 "Failed",
          Event.notifyEv "Transfer Failed"
            (format_transfer_message cfg.hdfs_path "FAILED" e)],
        outcome := Outcome.failedReported e }

/-- Model of `main()` from `src/main.py` (lines 179–267), stage by
stage: load configuration (early `return` on failure), build the
collaborator clients, capture the start time, initialize the HDFS/S3
clients (outside the try block, so a failure there propagates), then
inside the try block: access check (raising
`"User lacks access permissions"` on denial), HDFS read, plaintext
checksum, KMS encryption, S3 upload of the ciphertext, S3 read-back,
checksum verification of the raw downloaded bytes against the
plaintext baseline (raising `"Checksum verification failed"` on
mismatch), then the success metric batch and the success notification;
any exception is handled by `reportFailure`. -/
def mainModel (H : List Nat → String) (env : Env) : MainResult :=
  match env.secrets with
  | none => { events := [], outcome := Outcome.configAbort }
  | some cfg =>
    if env.clientsOk = false then { events := [], outcome := Outcome.crashed }
    else if check_user_access env.world cfg.hdfs_path cfg.hdfs_user = false then
      reportFailure cfg env.monitorErr env.notifierErr []
        "User lacks access permissions"
    else
      match env.readRes with
      | Except.error e => reportFailure cfg env.monitorErr env.notifierErr [] e
      | Except.ok file_content =>
        let evs1 := [Event.readEv cfg.hdfs_path]
        let checksum := generate_checksum H (strBytes file_content)
        match KMSEncryption.encrypt_data env.kmsRemote (strBytes file_content) with
        | Except.error e => reportFailure cfg env.monitorErr env.notifierErr evs1 e
        | Except.ok encrypted_data =>
          match env.uploadErr with
          | some e => reportFailure cfg env.monitorErr env.notifierErr evs1 e
          | none =>
            let evs2 := evs1 ++ [Event.uploadEv cfg.s3_bucket_name
              cfg.s3_file_key encrypted_data.ciphertext]
            match env.downloadRes with
            | Except.error e =>
              reportFailure cfg env.monitorErr env.notifierErr evs2 e
            | Except.ok body =>
              let evs3 := evs2 ++ [Event.downloadEv cfg.s3_bucket_name
                cfg.s3_file_key]
              if verify_checksum H body checksum = false then
                reportFailure cfg env.monitorErr env.notifierErr evs3
                  "Checksum verification failed"
              else
                let transfer_time := env.reportTime - env.startTime
                match env.monitorErr with
                | some e =>
                  reportFailure cfg env.monitorErr env.notifierErr evs3 e
                | none =>
                  let evs4 := evs3 ++ [Event.metricEv file_content.length
                    transfer_time "Success"]
                  match env.notifierErr with
                  | some e =>
                    reportFailure cfg env.monitorErr env.notifierErr evs4 e
                  | none =>
                    { events := evs4 ++ [Event.notifyEv "Transfer Successful"
                        (format_transfer_message cfg.hdfs_path "SUCCESS"
                          ("Transferred in " ++ toString transfer_time ++
                            " seconds"))],
                      outcome := Outcome.success }

/-! ## Concrete instances used for counterexamples and witnesses -/

/-- Concrete stand-in for the external sha256 hex digest: the decimal
length of the input.  It distinguishes the concrete plaintexts and
ciphertexts appearing in the counterexamples below, which is the only
property of sha256 those evaluations rely on. -/
def lengthDigest (l : List Nat) : String := toString l.length

/-- Concrete cipher satisfying the Fernet contract: prepend a zero
byte; decryption drops it. -/
def prependCipher : FernetCipher where
  encryptFn := fun x => 0 :: x
  decryptFn := fun y => y.drop 1
  decrypt_encrypt := by intro x; rfl
  encrypt_nonempty := by intro x; simp

/-- Concrete `Encryption` instance holding the encoded key `"k"` and
the `prependCipher` Fernet object. -/
def encAt : Encryption := { key := strBytes "k", cipher := prependCipher }

/-- Concrete configuration for the end-to-end evaluations (the
happy-path configuration of the spec's scenario A). -/
def cfgA : Config where
  hdfs_url := "http://namenode:9870"
  hdfs_user := "alice"
  hdfs_path := "/data/report.txt"
  s3_bucket_name := "b1"
  s3_file_key := "report.txt"
  aws_region := "us-east-1"
  kms_key_id := "kms-key-1"
  sns_topic_arn := "arn:aws:sns:topic"

/-- Lookup world in which the owning-group command reports group
`analytics` and the user belongs to `analytics` and `users`: access is
granted. -/
def worldGrant : World where
  stat := fun _ => some "analytics\n"
  idGn := fun _ => some "analytics users\n"

/-- Lookup world in which the owning-group command fails (nonzero
exit): access is denied. -/
def worldDeny : World where
  stat := fun _ => none
  idGn := fun _ => some "users\n"

/-- Lookup world in which the identity command fails (nonzero exit):
the membership set is empty. -/
def worldNoId : World where
  stat := fun _ => some "analytics\n"
  idGn := fun _ => none

/-- Remote KMS call that prepends one byte to the plaintext: a minimal
stand-in for a real cipher, whose ciphertext differs from the
plaintext. -/
def remotePrepend : List Nat → Except String KMSRecord :=
  fun d => Except.ok { ciphertext := 0 :: d, key_id := "kms-key-1" }

/-- Degenerate remote KMS call whose ciphertext equals the plaintext;
used to reach the success path of `mainModel` under the
ciphertext-vs-plaintext checksum comparison of `main()`. -/
def remoteId : List Nat → Except String KMSRecord :=
  fun d => Except.ok { ciphertext := d, key_id := "kms-key-1" }

/-- Invocation environment for the spec's scenario A (happy path) with
a real (byte-changing) cipher: access granted, source content
`"hello world"`, encryption succeeds, the write stores exactly the
bytes it was given and the read-back returns exactly the stored
bytes. -/
def envC1 : Env where
  secrets := some cfgA
  clientsOk := true
  world := worldGrant
  readRes := Except.ok "hello world"
  kmsRemote := remotePrepend
  uploadErr := none
  downloadRes := Except.ok (0 :: strBytes "hello world")
  monitorErr := none
  notifierErr := none
  startTime := 0
  reportTime := 2

/-- Invocation environment whose configuration load fails. -/
def envNoConfig : Env where
  secrets := none
  clientsOk := true
  world := worldGrant
  readRes := Except.ok "hello world"
  kmsRemote := remotePrepend
  uploadErr := none
  downloadRes := Except.ok []
  monitorErr := none
  notifierErr := none
  startTime := 0
  reportTime := 0

/-- Invocation environment in which the access check denies and five
seconds elapse between the two clock readings. -/
def envDenied : Env where
  secrets := some cfgA
  clientsOk := true
  world := worldDeny
  readRes := Except.ok "hello world"
  kmsRemote := remotePrepend
  uploadErr := none
  downloadRes := Except.ok []
  monitorErr := none
  notifierErr := none
  startTime := 0
  reportTime := 5

/-- Invocation environment that reaches the success path (degenerate
identity cipher, exact read-back). -/
def envHappy : Env where
  secrets := some cfgA
  clientsOk := true
  world := worldGrant
  readRes := Except.ok "hello world"
  kmsRemote := remoteId
  uploadErr := none
  downloadRes := Except.ok (strBytes "hello world")
  monitorErr := none
  notifierErr := none
  startTime := 0
  reportTime := 3

/-- Invocation environment in which the source read returns the empty
string, so the encryption stage is called on an empty payload. -/
def envEmptyPayload : Env where
  secrets := some cfgA
  clientsOk := true
  world := worldGrant
  readRes := Except.ok ""
  kmsRemote := remotePrepend
  uploadErr := none
  downloadRes := Except.ok []
  monitorErr := none
  notifierErr := none
  startTime := 0
  reportTime := 1

/-- Bool test for a telemetry event. -/
def isMetricEv : Event → Bool
  | Event.metricEv _ _ _ => true
  | _ => false

/-- Bool test for a notification event. -/
def isNotifyEv : Event → Bool
  | Event.notifyEv _ _ => true
  | _ => false

/-- Number of metric batches (calls to `log_transfer_stats`) in an
event list. -/
def metricCount (evs : List Event) : Nat := (evs.filter isMetricEv).length

/-- Number of notifications (calls to `send_notification`) in an event
list. -/
def notifyCount (evs : List Event) : Nat := (evs.filter isNotifyEv).length

/-! ## Theorems -/

/-- C4: `authorize(path, user)` grants iff the owning-group lookup
yields a non-empty group name belonging to the user's group list; a
failed owning-group lookup denies, and a failed identity lookup yields
the empty membership list — in every case the check returns a Bool
and never raises (the model is a total function). -/
theorem check_user_access_spec (w : World) (path user : String) :
    (check_user_access w path user = true ↔
      ∃ g, get_file_group w path = some g ∧ g ≠ "" ∧
        g ∈ get_user_groups w user) ∧
    (w.stat path = none → check_user_access w path user = false) ∧
    (w.idGn user = none → get_user_groups w user = []) := by
  refine ⟨?_, ?_, ?_⟩
  · unfold check_user_access
    cases hg : get_file_group w path with
    | none => simp
    | some g =>
      by_cases hge : g = ""
      · subst hge
        simp
      · simp [hge]
  · intro hstat
    unfold check_user_access get_file_group
    rw [hstat]
  · intro hid
    unfold get_user_groups
    rw [hid]

/-- Witness for C4: in `worldDeny` the owning-group lookup fails and
access is denied; in `worldNoId` the identity lookup fails and the
membership list is empty. -/
theorem check_user_access_spec_witness :
    check_user_access worldDeny "/data/report.txt" "alice" = false ∧
    get_user_groups worldNoId "alice" = [] :=
  ⟨(check_user_access_spec worldDeny "/data/report.txt" "alice").2.1 rfl,
   (check_user_access_spec worldNoId "/data/report.txt" "alice").2.2 rfl⟩

/-- C7: for every non-empty byte sequence `x`, decrypting the
ciphertext produced by `encrypt_data` under the same `Encryption`
instance returns exactly `x`. -/
theorem encrypt_decrypt_roundtrip (st : Encryption) (x : List Nat)
    (r : EncryptedData) (hx : x ≠ [])
    (henc : st.encrypt_data x = Except.ok r) :
    st.decrypt_data r.ciphertext = Except.ok x := by
  unfold Encryption.encrypt_data at henc
  rw [if_neg hx] at henc
  have hr := Except.ok.inj henc
  rw [← hr]
  unfold Encryption.decrypt_data
  rw [if_neg (st.cipher.encrypt_nonempty x)]
  rw [st.cipher.decrypt_encrypt]

/-- Witness for C7: the round trip evaluated on the concrete instance
`encAt` and the payload bytes of `"hi"`. -/
theorem encrypt_decrypt_roundtrip_witness :
    encAt.decrypt_data
        (EncryptedData.mk (0 :: strBytes "hi") (strBytes "k")).ciphertext =
      Except.ok (strBytes "hi") :=
  encrypt_decrypt_roundtrip encAt (strBytes "hi")
    ⟨0 :: strBytes "hi", strBytes "k"⟩ (by decide) (by rfl)

/-- C8: `generate_checksum` is a pure deterministic function of its
input (equal inputs yield equal hex strings), and `verify_checksum`
returns `true` iff the recomputed checksum equals the received one. -/
theorem checksum_deterministic_verify_iff (H : List Nat → String)
    (b1 b2 : List Nat) (c : String) :
    (b1 = b2 → generate_checksum H b1 = generate_checksum H b2) ∧
    (verify_checksum H b1 c = true ↔ generate_checksum H b1 = c) := by
  constructor
  · intro h
    rw [h]
  · unfold verify_checksum
    exact beq_iff_eq

/-- Witness for C8: evaluation at the digest `lengthDigest` and the
concrete input `[1, 2]`. -/
theorem checksum_deterministic_verify_iff_witness :
    generate_checksum lengthDigest [1, 2] =
        generate_checksum lengthDigest [1, 2] ∧
    (verify_checksum lengthDigest [1, 2] "2" = true ↔
      generate_checksum lengthDigest [1, 2] = "2") :=
  ⟨(checksum_deterministic_verify_iff lengthDigest [1, 2] [1, 2] "2").1 rfl,
   (checksum_deterministic_verify_iff lengthDigest [1, 2] [1, 2] "2").2⟩

/-- C10: every successful `encrypt_data` call returns a record whose
`key_id` field is `self.key`, which is exactly the encoded bytes of
the pre-shared key string supplied at construction time — the key
material itself. -/
theorem encrypt_key_id_is_raw_key (encryption_key : String)
    (cipher : FernetCipher) (st : Encryption) (d : List Nat)
    (r : EncryptedData)
    (hinit : Encryption.init encryption_key cipher = Except.ok st)
    (henc : st.encrypt_data d = Except.ok r) :
    r.key_id = st.key ∧ r.key_id = strBytes encryption_key := by
  unfold Encryption.init at hinit
  by_cases hk : encryption_key = ""
  · rw [if_pos hk] at hinit
    exact absurd hinit (by simp)
  · rw [if_neg hk] at hinit
    have h1 := Except.ok.inj hinit
    unfold Encryption.encrypt_data at henc
    by_cases hd : d = []
    · rw [if_pos hd] at henc
      exact absurd henc (by simp)
    · rw [if_neg hd] at henc
      have h2 := Except.ok.inj henc
      rw [← h2, ← h1]
      exact ⟨rfl, rfl⟩

/-- Witness for C10: evaluation at the key `"k"`, the cipher
`prependCipher` and the payload `[1]`. -/
theorem encrypt_key_id_is_raw_key_witness :
    (EncryptedData.mk (0 :: [1]) (strBytes "k")).key_id = encAt.key ∧
    (EncryptedData.mk (0 :: [1]) (strBytes "k")).key_id = strBytes "k" :=
  encrypt_key_id_is_raw_key "k" prependCipher encAt [1]
    ⟨0 :: [1], strBytes "k"⟩ (by rfl) (by rfl)

/-- C3 (amended): on every invocation whose configuration load
succeeds, whose client initialization succeeds and whose reporting
collaborators do not themselves raise, the Reporting stage runs
exactly once — exactly one metric batch and exactly one notification
are emitted, on the success path and on every failure path alike. -/
theorem reporting_once (H : List Nat → String) (env : Env) (cfg : Config)
    (hs : env.secrets = some cfg) (hcl : env.clientsOk = true)
    (hm : env.monitorErr = none) (hn : env.notifierErr = none) :
    metricCount (mainModel H env).events = 1 ∧
    notifyCount (mainModel H env).events = 1 := by
  simp only [mainModel, hs, hcl, hm, hn, reportFailure]
  repeat' split
  all_goals simp_all [metricCount, notifyCount, isMetricEv, isNotifyEv]

/-- Witness for C3 (amended): the happy-path environment emits exactly
one metric batch and one notification. -/
theorem reporting_once_witness :
    metricCount (mainModel lengthDigest envHappy).events = 1 ∧
    notifyCount (mainModel lengthDigest envHappy).events = 1 :=
  reporting_once lengthDigest envHappy cfgA rfl rfl rfl rfl

/-- C3 (counterexample): when the configuration load fails, `main()`
returns early and the invocation terminates with no metric and no
notification at all, refuting the claim that the Reporting stage runs
on every path including configuration-load failure. -/
theorem config_failure_emits_no_reports :
    (mainModel lengthDigest envNoConfig).events = [] ∧
    (mainModel lengthDigest envNoConfig).outcome = Outcome.configAbort := by
  decide

/-- C2: a Success report (the `Success` metric batch or the
`"Transfer Successful"` notification) is emitted only on executions in
which the checksum verification on the bytes read back from the
destination returned `true` against the plaintext baseline. -/
theorem success_requires_verification (H : List Nat → String) (env : Env)
    (h : (∃ n d, Event.metricEv n d "Success" ∈ (mainModel H env).events) ∨
         (∃ b, Event.notifyEv "Transfer Successful" b ∈
            (mainModel H env).events)) :
    ∃ fc body, env.readRes = Except.ok fc ∧
      env.downloadRes = Except.ok body ∧
      verify_checksum H body (generate_checksum H (strBytes fc)) = true := by
  revert h
  simp only [mainModel, reportFailure]
  repeat' split
  all_goals intro h
  all_goals rcases h with ⟨n, d, hmem⟩ | ⟨b, hmem⟩ <;> simp_all

/-- Witness for C2: the happy-path environment emits the Success
metric, and the verification on its read-back indeed passed. -/
theorem success_requires_verification_witness :
    ∃ fc body, envHappy.readRes = Except.ok fc ∧
      envHappy.downloadRes = Except.ok body ∧
      verify_checksum lengthDigest body
        (generate_checksum lengthDigest (strBytes fc)) = true :=
  success_requires_verification lengthDigest envHappy
    (Or.inl ⟨11, 3, by decide⟩)

/-- C9 (amended): the duration handed to telemetry on the success path
is the elapsed time between the two clock readings (`Initializing` and
`Reporting`); on every failure path the telemetry batch instead
reports file size 0 and duration 0, regardless of the elapsed time. -/
theorem duration_reporting (H : List Nat → String) (env : Env) :
    (∀ n d, Event.metricEv n d "Success" ∈ (mainModel H env).events →
      d = env.reportTime - env.startTime) ∧
    (∀ n d, Event.metricEv n d "Failed" ∈ (mainModel H env).events →
      n = 0 ∧ d = 0) := by
  refine ⟨fun n d h => ?_, fun n d h => ?_⟩
  all_goals revert h
  all_goals simp only [mainModel, reportFailure]
  all_goals repeat' split
  all_goals intro h
  all_goals simp_all

/-- Witness for C9 (amended): on the happy path the reported duration
equals the elapsed 3 seconds; on the denied path the failure batch
reports 0/0. -/
theorem duration_reporting_witness :
    ((3 : Int) = envHappy.reportTime - envHappy.startTime) ∧
    ((0 : Nat) = 0 ∧ (0 : Int) = 0) :=
  ⟨(duration_reporting lengthDigest envHappy).1 11 3 (by decide),
   (duration_reporting lengthDigest envDenied).2 0 0 (by decide)⟩

/-- C9 (counterexample): in `envDenied` five seconds elapse between
the two clock readings, yet the only telemetry batch reports duration
0 — the duration reported at Reporting is not the elapsed wall-clock
time on the failure path. -/
theorem failure_metric_ignores_elapsed_time :
    (mainModel lengthDigest envDenied).events =
      [Event.metricEv 0 0 "Failed",
       Event.notifyEv "Transfer Failed"
         (format_transfer_message cfgA.hdfs_path "FAILED"
           "User lacks access permissions")] ∧
    envDenied.reportTime - envDenied.startTime = 5 ∧
    ¬((0 : Int) = envDenied.reportTime - envDenied.startTime) := by
  decide

/-- C5: when the access check denies, the invocation performs no
source read and no destination write, reports the outcome Failed with
the detail `"User lacks access permissions"` (which contains
`"access"`), and publishes exactly one failure notification; and, in
general, every reported failure short-circuits directly to the failure
report — the event trace is some prefix of pipeline I/O events
followed immediately by the failure metric batch and the failure
notification. -/
theorem access_denied_shortcircuit :
    (∀ (H : List Nat → String) (env : Env) (cfg : Config),
      env.secrets = some cfg → env.clientsOk = true →
      env.monitorErr = none → env.notifierErr = none →
      check_user_access env.world cfg.hdfs_path cfg.hdfs_user = false →
      (mainModel H env).events = [Event.metricEv 0 0 "Failed",
          Event.notifyEv "Transfer Failed"
            (format_transfer_message cfg.hdfs_path "FAILED"
              "User lacks access permissions")] ∧
      (mainModel H env).outcome =
          Outcome.failedReported "User lacks access permissions" ∧
      containsStr "User lacks access permissions" "access" = true ∧
      (∀ p, Event.readEv p ∉ (mainModel H env).events) ∧
      (∀ b k body, Event.uploadEv b k body ∉ (mainModel H env).events) ∧
      notifyCount (mainModel H env).events = 1) ∧
    (∀ (H : List Nat → String) (env : Env) (cfg : Config) (e : String),
      env.secrets = some cfg →
      env.monitorErr = none → env.notifierErr = none →
      (mainModel H env).outcome = Outcome.failedReported e →
      ∃ pre, (mainModel H env).events = pre ++ [Event.metricEv 0 0 "Failed",
          Event.notifyEv "Transfer Failed"
            (format_transfer_message cfg.hdfs_path "FAILED" e)] ∧
        ∀ ev ∈ pre, (∃ p, ev = Event.readEv p) ∨
          (∃ b k bd, ev = Event.uploadEv b k bd) ∨
          (∃ b k, ev = Event.downloadEv b k)) := by
  constructor
  · intro H env cfg hs hcl hm hn hacc
    simp only [mainModel, hs, hcl, hacc, hm, hn, reportFailure]
    refine ⟨by simp, by simp, by decide, ?_, ?_, ?_⟩ <;>
      simp [notifyCount, isNotifyEv]
  · intro H env cfg e hs hm hn hout
    revert hout
    simp only [mainModel, hs, hm, hn, reportFailure]
    repeat' split
    all_goals intro hout
    all_goals try simp_all
    all_goals
      first
        | exact ⟨[], rfl, fun ev h => nomatch h⟩
        | exact ⟨[Event.readEv cfg.hdfs_path], rfl, by simp⟩
        | exact ⟨[Event.readEv cfg.hdfs_path,
            Event.uploadEv cfg.s3_bucket_name cfg.s3_file_key _], rfl,
            by simp⟩
        | exact ⟨[Event.readEv cfg.hdfs_path,
            Event.uploadEv cfg.s3_bucket_name cfg.s3_file_key _,
            Event.downloadEv cfg.s3_bucket_name cfg.s3_file_key], rfl,
            by simp⟩

/-- Witness for C5: the conclusions evaluated on the concrete denied
environment `envDenied`. -/
theorem access_denied_shortcircuit_witness :
    ((mainModel lengthDigest envDenied).events = [Event.metricEv 0 0 "Failed",
        Event.notifyEv "Transfer Failed"
          (format_transfer_message cfgA.hdfs_path "FAILED"
            "User lacks access permissions")] ∧
      (mainModel lengthDigest envDenied).outcome =
          Outcome.failedReported "User lacks access permissions" ∧
      containsStr "User lacks access permissions" "access" = true ∧
      (∀ p, Event.readEv p ∉ (mainModel lengthDigest envDenied).events) ∧
      (∀ b k body, Event.uploadEv b k body ∉
          (mainModel lengthDigest envDenied).events) ∧
      notifyCount (mainModel lengthDigest envDenied).events = 1) ∧
    (∃ pre, (mainModel lengthDigest envDenied).events =
        pre ++ [Event.metricEv 0 0 "Failed",
          Event.notifyEv "Transfer Failed"
            (format_transfer_message cfgA.hdfs_path "FAILED"
              "User lacks access permissions")] ∧
      ∀ ev ∈ pre, (∃ p, ev = Event.readEv p) ∨
        (∃ b k bd, ev = Event.uploadEv b k bd) ∨
        (∃ b k, ev = Event.downloadEv b k)) :=
  ⟨access_denied_shortcircuit.1 lengthDigest envDenied cfgA rfl rfl rfl rfl
      (by decide),
   access_denied_shortcircuit.2 lengthDigest envDenied cfgA
      "User lacks access permissions" rfl rfl rfl (by decide)⟩

/-- C6: `encrypt_data` rejects the empty byte sequence (both the local
Fernet class and the spec-modelled managed-key variant), and in the
pipeline an encryption call on an empty payload fails the invocation
before any destination write is attempted. -/
theorem empty_payload_rejected (H : List Nat → String) (env : Env)
    (cfg : Config)
    (hs : env.secrets = some cfg) (hcl : env.clientsOk = true)
    (hacc : check_user_access env.world cfg.hdfs_path cfg.hdfs_user = true)
    (hread : env.readRes = Except.ok "") :
    (∀ st : Encryption, st.encrypt_data [] =
        Except.error "Data cannot be empty") ∧
    (∀ remote, KMSEncryption.encrypt_data remote [] =
        Except.error "Data cannot be empty") ∧
    (∀ b k body, Event.uploadEv b k body ∉ (mainModel H env).events) ∧
    (mainModel H env).outcome ≠ Outcome.success := by
  refine ⟨fun st => rfl, fun remote => rfl, ?_, ?_⟩
  all_goals
    simp only [mainModel, hs, hcl, hread, reportFailure,
      KMSEncryption.encrypt_data]
  all_goals repeat' split
  all_goals simp_all [strBytes]

/-- Witness for C6: the empty-payload environment performs no upload
and does not succeed. -/
theorem empty_payload_rejected_witness :
    (∀ st : Encryption, st.encrypt_data [] =
        Except.error "Data cannot be empty") ∧
    (∀ remote, KMSEncryption.encrypt_data remote [] =
        Except.error "Data cannot be empty") ∧
    (∀ b k body, Event.uploadEv b k body ∉
        (mainModel lengthDigest envEmptyPayload).events) ∧
    (mainModel lengthDigest envEmptyPayload).outcome ≠ Outcome.success :=
  empty_payload_rejected lengthDigest envEmptyPayload cfgA rfl rfl
    (by decide) rfl

/-- C1 (code bug): in `envC1` every hypothesis of the claim holds —
access is granted, the read returns `"hello world"`, encryption
succeeds, the write stores exactly the bytes it was given and the
read-back returns exactly the stored bytes — and the checksum of the
decrypted destination content would match the baseline; yet `main()`
checksums the raw downloaded ciphertext without decrypting it,
verification fails, and the outcome is Failed instead of Success. -/
theorem verification_compares_raw_download_against_plaintext :
    check_user_access envC1.world cfgA.hdfs_path cfgA.hdfs_user = true ∧
    envC1.readRes = Except.ok "hello world" ∧
    KMSEncryption.encrypt_data envC1.kmsRemote (strBytes "hello world") =
      Except.ok { ciphertext := 0 :: strBytes "hello world",
                  key_id := "kms-key-1" } ∧
    envC1.downloadRes = Except.ok (0 :: strBytes "hello world") ∧
    verify_checksum lengthDigest
        (prependCipher.decryptFn (0 :: strBytes "hello world"))
        (generate_checksum lengthDigest (strBytes "hello world")) = true ∧
    verify_checksum lengthDigest (0 :: strBytes "hello world")
        (generate_checksum lengthDigest (strBytes "hello world")) = false ∧
    (mainModel lengthDigest envC1).outcome =
      Outcome.failedReported "Checksum verification failed" :=
  ⟨by decide, rfl, rfl, rfl, by decide, by decide, by decide⟩

end HadoopToAws
